import Mathlib

/-!
Shallow embedding of the `blueshift_anchor_escrow` program, centred on the
Refund (Cancel) instruction of `src/instructions/refund.rs` and the program
entry points of `src/lib.rs`.

Pubkeys, lamport balances and token amounts are modelled as `Nat`.  The SPL
token program and the Anchor account-constraint machinery are external
collaborators of the program; their operations (`transfer_checked`,
`close_account`, associated-token address derivation, program-derived-address
derivation) are modelled as explicit pure functions.
-/

namespace BlueshiftEscrow

/-- Little-endian byte encoding of a `u64`, modelling `u64::to_le_bytes()`
as used for `escrow.seed.to_le_bytes()` in `refund.rs`. -/
def u64ToLeBytes (n : Nat) : List Nat :=
  [n % 256, n / 256 % 256, n / 256 ^ 2 % 256, n / 256 ^ 3 % 256,
   n / 256 ^ 4 % 256, n / 256 ^ 5 % 256, n / 256 ^ 6 % 256, n / 256 ^ 7 % 256]

/-- Little-endian byte encoding of a 32-byte pubkey, modelling
`Pubkey::as_ref()`. -/
def pubkeyBytes (k : Nat) : List Nat :=
  (List.range 32).map (fun i => k / 256 ^ i % 256)

/-- The bytes of the constant seed tag `b"escrow"`. -/
def escrowTag : List Nat := [101, 115, 99, 114, 111, 119]

/-- Modelled hash underlying program-derived-address computation.  The real
runtime uses SHA-256; the derivation being a fixed deterministic function of
the seed bytes is the only property the program relies on, so a cheap
deterministic rolling hash stands in for it. -/
def hashSeed (acc : Nat) (l : List Nat) : Nat :=
  l.foldl (fun a b => (a * 257 + b + 1) % 1000000007) acc

/-- Models `Pubkey::create_program_address(seeds, program_id)`: a pure
deterministic function of the seed byte-strings. -/
def createProgramAddress (seeds : List (List Nat)) : Nat :=
  seeds.foldl hashSeed 1

/-- The signer seeds built in `Refund::refund_and_close_vault`:
`[b"escrow", maker.key().as_ref(), escrow.seed.to_le_bytes(), [escrow.bump]]`.
The same list (seeds plus bump) underlies the `seeds = [...], bump = escrow.bump`
constraint on the `escrow` account. -/
def signerSeeds (maker seed bump : Nat) : List (List Nat) :=
  [escrowTag, pubkeyBytes maker, u64ToLeBytes seed, [bump]]

/-- The escrow record's address / vault authority as a pure function of the
tag, the maker and the seed, with its derivation bump. -/
def escrowAddress (maker seed bump : Nat) : Nat :=
  createProgramAddress (signerSeeds maker seed bump)

/-- Models the associated-token-account address derivation
`get_associated_token_address(authority, mint)`: a pure deterministic
function of the authority and the mint. -/
def ataAddress (authority mint : Nat) : Nat :=
  createProgramAddress [[2], pubkeyBytes authority, pubkeyBytes mint]

/-- Modelled from the spec: `src/state.rs` (the `Escrow` record layout) is not
among the provided sources.  Fields follow spec section 3 and the uses in
`refund.rs` (`escrow.seed`, `escrow.bump`, `has_one = maker`,
`has_one = mint_a`). -/
structure Escrow where
  maker : Nat
  mintA : Nat
  mintB : Nat
  receive : Nat
  seed : Nat
  bump : Nat
deriving Repr, DecidableEq

/-- An SPL token account: its mint, its owning authority and its balance. -/
structure TokenAccount where
  mint : Nat
  authority : Nat
  amount : Nat
deriving Repr, DecidableEq

/-- Modelled from the spec: `src/error.rs` is not among the provided sources.
The first six variants follow spec section 7 and the
`@ EscrowError::InvalidMaker` / `@ EscrowError::InvalidMintA` attachments in
`refund.rs`; the remaining variants model failures raised by the Anchor
account-constraint machinery and the SPL token program rather than by the
escrow program itself. -/
inductive EscrowError where
  | invalidMaker
  | invalidMintA
  | invalidMintB
  | recordNotFound
  | insufficientBalance
  | duplicateSeed
  | missingSignature
  | constraintSeeds
  | accountNotInitialized
  | constraintTokenAccount
  | ownerMismatch
  | mintMismatch
  | decimalsMismatch
  | nonZeroBalance
deriving Repr, DecidableEq

/-- Models the SPL token program's `transfer_checked`: the source account must
be owned by the signing authority, both accounts must hold the declared mint,
the declared decimals must match the mint's decimals, and the source balance
must cover the amount.  `signerKey` is the identity established by the CPI
signature (for a PDA signature, the address derived from the signer seeds). -/
def transfer_checked (source dest : TokenAccount)
    (mintKey mintDecimals amount decimals authority signerKey : Nat) :
    Except EscrowError (TokenAccount × TokenAccount) :=
  if authority ≠ signerKey then .error .missingSignature
  else if source.authority ≠ authority then .error .ownerMismatch
  else if source.mint ≠ mintKey then .error .mintMismatch
  else if dest.mint ≠ mintKey then .error .mintMismatch
  else if decimals ≠ mintDecimals then .error .decimalsMismatch
  else if source.amount < amount then .error .insufficientBalance
  else .ok ({ source with amount := source.amount - amount },
            { dest with amount := dest.amount + amount })

/-- Models the SPL token program's `close_account`: the account must be owned
by the signing authority and must hold a zero balance; on success the account
is deleted and its rent lamports go to the destination. -/
def close_account (acc : TokenAccount) (authority signerKey : Nat) :
    Except EscrowError Unit :=
  if authority ≠ signerKey then .error .missingSignature
  else if acc.authority ≠ authority then .error .ownerMismatch
  else if acc.amount ≠ 0 then .error .nonZeroBalance
  else .ok ()

/-- The pre-state of one Refund call: the accounts named by the `Refund`
accounts struct, each with its address, contents and lamport balance.
`Option` models account existence (`none` = the account does not exist on the
ledger). -/
structure RefundState where
  makerKey : Nat
  makerIsSigner : Bool
  makerLamports : Nat
  escrowAddr : Nat
  escrowAcc : Option Escrow
  escrowLamports : Nat
  mintAKey : Nat
  mintADecimals : Nat
  vaultAddr : Nat
  vault : Option TokenAccount
  vaultLamports : Nat
  makerAtaAddr : Nat
  makerAtaA : Option TokenAccount
  ataRentCost : Nat
deriving Repr, DecidableEq

/-- The `init_if_needed` provisioning of `maker_ata_a`: reuse the account when
it exists, otherwise create a fresh associated token account for
(`mint_a`, maker) with zero balance. -/
def initMakerAta (st : RefundState) : TokenAccount :=
  match st.makerAtaA with
  | some a => a
  | none => ⟨st.mintAKey, st.makerKey, 0⟩

/-- The maker's lamports after the `init_if_needed` step: when `maker_ata_a`
has to be created, the maker is the `payer` and funds its rent. -/
def makerLamAfterInit (st : RefundState) : Nat :=
  match st.makerAtaA with
  | some _ => st.makerLamports
  | none => st.makerLamports - st.ataRentCost

/-- The account validation of the `Refund` accounts struct.

Checks, in order: `maker` is a signer (`Signer<'info>`); the `escrow` account
exists and deserializes as an `Escrow` record (a missing record is the
spec's `RecordNotFound` condition); `has_one = maker @ EscrowError::InvalidMaker`;
`has_one = mint_a @ EscrowError::InvalidMintA`; the
`seeds = [b"escrow", maker.key(), escrow.seed.to_le_bytes()], bump = escrow.bump`
derivation of the escrow address; the `vault` exists and is the associated
token account for `mint_a` owned by the `escrow` account; `maker_ata_a` is the
maker's associated token account for `mint_a`, created (`init_if_needed`,
`payer = maker`) when absent.  The repository attaches its custom errors to
the two `has_one` checks, so those are modelled as the checks that name the
authorization and data-integrity failures; the runtime's structural
PDA/ATA-address checks are modelled after them with runtime error codes. -/
def refundValidate (st : RefundState) : Except EscrowError (Escrow × TokenAccount) :=
  if st.makerIsSigner = false then .error .missingSignature
  else match st.escrowAcc with
  | none => .error .recordNotFound
  | some esc =>
    if esc.maker ≠ st.makerKey then .error .invalidMaker
    else if esc.mintA ≠ st.mintAKey then .error .invalidMintA
    else if st.escrowAddr ≠ escrowAddress st.makerKey esc.seed esc.bump then
      .error .constraintSeeds
    else match st.vault with
    | none => .error .accountNotInitialized
    | some v =>
      if st.vaultAddr ≠ ataAddress st.escrowAddr st.mintAKey then
        .error .constraintTokenAccount
      else if v.mint ≠ st.mintAKey then .error .constraintTokenAccount
      else if v.authority ≠ st.escrowAddr then .error .constraintTokenAccount
      else if st.makerAtaAddr ≠ ataAddress st.makerKey st.mintAKey then
        .error .constraintTokenAccount
      else match st.makerAtaA with
      | some a =>
        if a.mint ≠ st.mintAKey then .error .constraintTokenAccount
        else if a.authority ≠ st.makerKey then .error .constraintTokenAccount
        else .ok (esc, v)
      | none =>
        if st.makerLamports < st.ataRentCost then .error .insufficientBalance
        else .ok (esc, v)

/-- The post-state of a successful Refund: tokens moved from the vault to
`maker_ata_a`, vault closed (rent to maker), escrow record closed
(`close = maker`, rent to maker). -/
def refundPost (st : RefundState) (vAmount : Nat) : RefundState :=
  { st with
    escrowAcc := none
    escrowLamports := 0
    vault := none
    vaultLamports := 0
    makerAtaA := some { initMakerAta st with amount := (initMakerAta st).amount + vAmount }
    makerLamports := makerLamAfterInit st + st.vaultLamports + st.escrowLamports }

/-- `Refund::refund_and_close_vault` plus the Anchor-driven `close = maker` on
the escrow record: transfer the vault's entire balance (`self.vault.amount`)
to `maker_ata_a` with `mint_a.decimals`, authorized by the escrow PDA via
`signer_seeds`; close the vault with rent to the maker; close the record with
rent to the maker. -/
def refund_and_close_vault (st : RefundState) (esc : Escrow) (v : TokenAccount) :
    Except EscrowError RefundState :=
  match transfer_checked v (initMakerAta st) st.mintAKey st.mintADecimals
      v.amount st.mintADecimals st.escrowAddr
      (createProgramAddress (signerSeeds st.makerKey esc.seed esc.bump)) with
  | .error e => .error e
  | .ok (v', ata') =>
    match close_account v' st.escrowAddr
        (createProgramAddress (signerSeeds st.makerKey esc.seed esc.bump)) with
    | .error e => .error e
    | .ok _ =>
      .ok { st with
        escrowAcc := none
        escrowLamports := 0
        vault := none
        vaultLamports := 0
        makerAtaA := some ata'
        makerLamports := makerLamAfterInit st + st.vaultLamports + st.escrowLamports }

/-- The `refund` instruction (`lib.rs` discriminator 2): account validation
followed by `refund_and_close_vault`. -/
def refund (st : RefundState) : Except EscrowError RefundState :=
  match refundValidate st with
  | .error e => .error e
  | .ok (esc, v) => refund_and_close_vault st esc v

/-- The ledger runtime's transactional semantics: a Refund transaction either
commits its whole effect or aborts leaving the pre-state untouched. -/
def runRefund (st : RefundState) : RefundState :=
  match refund st with
  | .ok st' => st'
  | .error _ => st

/-- The lifecycle states of one escrow instance (spec section 4 state
machine). -/
inductive LifecycleState where
  | nonExistent
  | opened
  | settled
  | cancelled
deriving Repr, DecidableEq, Fintype

/-- The three instructions declared in `lib.rs`. -/
inductive EscrowOp where
  | makeOp
  | takeOp
  | refundOp
deriving Repr, DecidableEq, Fintype

/-- Modelled from the spec: `src/instructions/make.rs` and
`src/instructions/take.rs` are not among the provided sources, so the
per-instance lifecycle follows spec sections 4 and 5: Make opens a
nonexistent escrow (reusing an occupied (maker, seed) pair is rejected as
`DuplicateSeed`); Take and Refund each require the record to exist and
destroy it as their final step; once the record is gone any further Take or
Refund observes a not-found condition.  A Make on a terminal state begins a
distinct escrow instance and therefore does not transition this one. -/
def lifecycleStep : EscrowOp → LifecycleState → Except EscrowError LifecycleState
  | .makeOp, .nonExistent => .ok .opened
  | .makeOp, .opened => .error .duplicateSeed
  | .makeOp, .settled => .error .duplicateSeed
  | .makeOp, .cancelled => .error .duplicateSeed
  | .takeOp, .opened => .ok .settled
  | .takeOp, _ => .error .recordNotFound
  | .refundOp, .opened => .ok .cancelled
  | .refundOp, _ => .error .recordNotFound

/-- A concrete escrow record used for witnesses: maker 7, mint A 5, mint B 6,
receive 50, seed 1, bump 0. -/
def esc0 : Escrow := ⟨7, 5, 6, 50, 1, 0⟩

/-- The derived address of `esc0`'s record / vault authority. -/
def escrowAddr0 : Nat := escrowAddress 7 1 0

/-- A concrete well-formed Refund pre-state: the maker signs, the record and
vault exist at their derived addresses, the vault holds 40 units of mint 5,
and the maker's associated token account does not yet exist. -/
def st0 : RefundState :=
  { makerKey := 7
    makerIsSigner := true
    makerLamports := 100
    escrowAddr := escrowAddr0
    escrowAcc := some esc0
    escrowLamports := 9
    mintAKey := 5
    mintADecimals := 2
    vaultAddr := ataAddress escrowAddr0 5
    vault := some ⟨5, escrowAddr0, 40⟩
    vaultLamports := 11
    makerAtaAddr := ataAddress 7 5
    makerAtaA := none
    ataRentCost := 3 }

/-- `st0` with the maker's associated token account already existing and
holding 25 units. -/
def st1 : RefundState :=
  { st0 with makerAtaA := some ⟨5, 7, 25⟩ }

/-- An intruder's attempt on `st0`: the signer's key 8 differs from the
recorded maker 7. -/
def stIntruder : RefundState :=
  { st0 with makerKey := 8 }

/-- `st0` with a wrong mint account supplied. -/
def stWrongMint : RefundState :=
  { st0 with mintAKey := 6, mintADecimals := 2 }

/-- Models the canonical-bump search of `find_program_address`: the bump is
itself a deterministic function of the seed bytes. -/
def canonicalBump (maker seed : Nat) : Nat :=
  hashSeed 0 (escrowTag ++ pubkeyBytes maker ++ u64ToLeBytes seed) % 256

/-- Models `Pubkey::find_program_address([b"escrow", maker, seed])`: the
escrow record's address (and hence the vault's controlling authority) as a
pure function of the tag, the maker and the seed alone. -/
def findEscrowAddress (maker seed : Nat) : Nat :=
  escrowAddress maker seed (canonicalBump maker seed)

deriving instance DecidableEq for Except

end BlueshiftEscrow

set_option maxRecDepth 100000
set_option maxHeartbeats 1600000

namespace BlueshiftEscrow

/-- Unpacking a successful account validation: every constraint of the
`Refund` accounts struct holds. -/
theorem refundValidate_ok {st : RefundState} {esc : Escrow} {v : TokenAccount}
    (h : refundValidate st = Except.ok (esc, v)) :
    st.makerIsSigner = true ∧
    st.escrowAcc = some esc ∧
    esc.maker = st.makerKey ∧
    esc.mintA = st.mintAKey ∧
    st.escrowAddr = escrowAddress st.makerKey esc.seed esc.bump ∧
    st.vault = some v ∧
    v.mint = st.mintAKey ∧
    v.authority = st.escrowAddr ∧
    st.vaultAddr = ataAddress st.escrowAddr st.mintAKey ∧
    st.makerAtaAddr = ataAddress st.makerKey st.mintAKey ∧
    (∀ a, st.makerAtaA = some a → a.mint = st.mintAKey ∧ a.authority = st.makerKey) ∧
    (st.makerAtaA = none → st.ataRentCost ≤ st.makerLamports) := by
  unfold refundValidate at h
  repeat' split at h
  all_goals simp_all

/-- The provisioned `maker_ata_a` holds mint A whenever a pre-existing
account passed validation. -/
theorem initMakerAta_mint {st : RefundState}
    (h : ∀ a, st.makerAtaA = some a → a.mint = st.mintAKey) :
    (initMakerAta st).mint = st.mintAKey := by
  cases hm : st.makerAtaA with
  | none => simp [initMakerAta, hm]
  | some a => simpa [initMakerAta, hm] using h a hm

/-- The provisioned `maker_ata_a` starts from the pre-existing balance, or
from zero when the account is freshly created. -/
theorem initMakerAta_amount (st : RefundState) :
    (initMakerAta st).amount = (st.makerAtaA.map TokenAccount.amount).getD 0 := by
  cases hm : st.makerAtaA <;> simp [initMakerAta, hm]

/-- Structure of every successful refund: validation succeeded and the
post-state is exactly `refundPost` at the vault's balance. -/
theorem refund_ok_struct {st st' : RefundState} (h : refund st = Except.ok st') :
    ∃ esc v, refundValidate st = Except.ok (esc, v) ∧ st' = refundPost st v.amount := by
  unfold refund at h
  cases hv : refundValidate st with
  | error e => rw [hv] at h; exact absurd h (by simp)
  | ok p =>
    obtain ⟨esc, v⟩ := p
    obtain ⟨hs, hacc, hmk, hma, haddr, hvlt, hvm, hva, hvaddr, hataaddr, hata, hrent⟩ :=
      refundValidate_ok hv
    have hmint : (initMakerAta st).mint = st.mintAKey :=
      initMakerAta_mint (fun a ha => (hata a ha).1)
    have hkey : createProgramAddress (signerSeeds st.makerKey esc.seed esc.bump)
        = st.escrowAddr := haddr.symm
    rw [hv] at h
    have h2 : refund_and_close_vault st esc v = Except.ok st' := h
    refine ⟨esc, v, rfl, ?_⟩
    unfold refund_and_close_vault at h2
    rw [hkey] at h2
    simp only [transfer_checked, close_account] at h2
    simp [hva, hvm, hmint, Nat.sub_self, lt_irrefl] at h2
    simp [refundPost, ← h2, hmint]

/-- C1: every successful Cancel (Refund) transfers the vault's entire current
balance of asset A to the maker's holding account — the amount moved is the
vault's balance at call time, not a separately stored deposit amount — after
which the vault and the escrow record no longer exist. -/
theorem refund_moves_entire_vault_balance (st st' : RefundState)
    (h : refund st = Except.ok st') :
    ∃ v, st.vault = some v ∧
      (st'.makerAtaA.map TokenAccount.amount).getD 0
        = (st.makerAtaA.map TokenAccount.amount).getD 0 + v.amount ∧
      st'.vault = none ∧ st'.escrowAcc = none := by
  obtain ⟨esc, v, hv, hpost⟩ := refund_ok_struct h
  obtain ⟨hs, hacc, hmk, hma, haddr, hvlt, hrest⟩ := refundValidate_ok hv
  subst hpost
  refine ⟨v, hvlt, ?_, rfl, rfl⟩
  simp [refundPost, initMakerAta_amount]

/-- Witness for C1: the successful refund of `st0` moves all 40 vault units
to the maker's holding account and removes the vault and the record. -/
theorem refund_moves_entire_vault_balance_witness :
    ∃ v, st0.vault = some v ∧
      ((refundPost st0 40).makerAtaA.map TokenAccount.amount).getD 0
        = (st0.makerAtaA.map TokenAccount.amount).getD 0 + v.amount ∧
      (refundPost st0 40).vault = none ∧ (refundPost st0 40).escrowAcc = none :=
  refund_moves_entire_vault_balance st0 (refundPost st0 40) (by decide)

/-- C2: a Cancel (Refund) signed by an identity different from the maker
recorded in the escrow record fails with `InvalidMaker` and leaves every
balance and every account unchanged. -/
theorem cancel_by_non_maker_fails_invalid_maker (st : RefundState) (esc : Escrow)
    (h1 : st.makerIsSigner = true) (h2 : st.escrowAcc = some esc)
    (h3 : esc.maker ≠ st.makerKey) :
    refund st = Except.error EscrowError.invalidMaker ∧ runRefund st = st := by
  have he : refund st = Except.error EscrowError.invalidMaker := by
    unfold refund refundValidate
    simp [h1, h2, h3]
  exact ⟨he, by simp [runRefund, he]⟩

/-- Witness for C2: the signer with key 8 is not the recorded maker 7 of
`stIntruder`, so the refund fails with `InvalidMaker` and changes nothing. -/
theorem cancel_by_non_maker_fails_invalid_maker_witness :
    refund stIntruder = Except.error EscrowError.invalidMaker ∧
    runRefund stIntruder = stIntruder :=
  cancel_by_non_maker_fails_invalid_maker stIntruder esc0 (by decide) (by decide) (by decide)

/-- C3: a Cancel (Refund) supplying a mint different from the record's stored
`mint_a` is rejected with `InvalidMintA` before any transfer, leaving every
balance and every account unchanged. -/
theorem cancel_with_wrong_mint_fails_invalid_mint_a (st : RefundState) (esc : Escrow)
    (h1 : st.makerIsSigner = true) (h2 : st.escrowAcc = some esc)
    (h3 : esc.maker = st.makerKey) (h4 : esc.mintA ≠ st.mintAKey) :
    refund st = Except.error EscrowError.invalidMintA ∧ runRefund st = st := by
  have he : refund st = Except.error EscrowError.invalidMintA := by
    unfold refund refundValidate
    simp [h1, h2, h3, h4]
  exact ⟨he, by simp [runRefund, he]⟩

/-- Witness for C3: supplying mint 6 against the record's stored mint 5 in
`stWrongMint` is rejected with `InvalidMintA` and changes nothing. -/
theorem cancel_with_wrong_mint_fails_invalid_mint_a_witness :
    refund stWrongMint = Except.error EscrowError.invalidMintA ∧
    runRefund stWrongMint = stWrongMint :=
  cancel_with_wrong_mint_fails_invalid_mint_a stWrongMint esc0
    (by decide) (by decide) (by decide) (by decide)

/-- C4: every successful Cancel (Refund) closes both the vault and the escrow
record, and the rent lamports of both closed accounts go to the maker. -/
theorem refund_closes_both_accounts_rent_to_maker (st st' : RefundState)
    (h : refund st = Except.ok st') :
    st'.vault = none ∧ st'.escrowAcc = none ∧
    st'.vaultLamports = 0 ∧ st'.escrowLamports = 0 ∧
    st'.makerLamports = makerLamAfterInit st + st.vaultLamports + st.escrowLamports := by
  obtain ⟨esc, v, hv, hpost⟩ := refund_ok_struct h
  subst hpost
  exact ⟨rfl, rfl, rfl, rfl, rfl⟩

/-- Witness for C4: refunding `st0` closes both accounts and credits the
maker with both rents. -/
theorem refund_closes_both_accounts_rent_to_maker_witness :
    (refundPost st0 40).vault = none ∧ (refundPost st0 40).escrowAcc = none ∧
    (refundPost st0 40).vaultLamports = 0 ∧ (refundPost st0 40).escrowLamports = 0 ∧
    (refundPost st0 40).makerLamports
      = makerLamAfterInit st0 + st0.vaultLamports + st0.escrowLamports :=
  refund_closes_both_accounts_rent_to_maker st0 (refundPost st0 40) (by decide)

/-- C5: after a terminal operation on a (maker, seed) pair the record no
longer exists, so a second Cancel fails with the not-found condition and
changes no balance; likewise, in the lifecycle model, any Take or Refund
after a terminal Take or Refund fails with `RecordNotFound`. -/
theorem second_terminal_operation_fails_record_not_found :
    (∀ st st' : RefundState, refund st = Except.ok st' →
      refund st' = Except.error EscrowError.recordNotFound ∧ runRefund st' = st') ∧
    (∀ (op : EscrowOp) (s s' : LifecycleState), op ≠ EscrowOp.makeOp →
      lifecycleStep op s = Except.ok s' →
      lifecycleStep EscrowOp.takeOp s' = Except.error EscrowError.recordNotFound ∧
      lifecycleStep EscrowOp.refundOp s' = Except.error EscrowError.recordNotFound) := by
  constructor
  · intro st st' h
    obtain ⟨esc, v, hv, hpost⟩ := refund_ok_struct h
    obtain ⟨hs, hrest⟩ := refundValidate_ok hv
    subst hpost
    have he : refund (refundPost st v.amount) = Except.error EscrowError.recordNotFound := by
      unfold refund refundValidate
      simp [refundPost, hs]
    exact ⟨he, by simp [runRefund, he]⟩
  · decide

/-- Witness for C5: after the refund of `st0` commits, retrying the refund
fails with `RecordNotFound`, and in the lifecycle model a Refund after a
Refund fails the same way. -/
theorem second_terminal_operation_fails_record_not_found_witness :
    (refund (refundPost st0 40) = Except.error EscrowError.recordNotFound ∧
      runRefund (refundPost st0 40) = refundPost st0 40) ∧
    (lifecycleStep EscrowOp.takeOp LifecycleState.cancelled
        = Except.error EscrowError.recordNotFound ∧
      lifecycleStep EscrowOp.refundOp LifecycleState.cancelled
        = Except.error EscrowError.recordNotFound) :=
  ⟨second_terminal_operation_fails_record_not_found.1 st0 (refundPost st0 40) (by decide),
   second_terminal_operation_fails_record_not_found.2 EscrowOp.refundOp
     LifecycleState.opened LifecycleState.cancelled (by decide) (by decide)⟩

/-- C6: whenever any step of a Cancel (Refund) fails — validation, the token
transfer or either account closure — the whole transaction aborts and the
committed state is exactly the pre-state: no leg of the operation takes
effect on its own. -/
theorem refund_failure_has_no_effect (st : RefundState) (e : EscrowError)
    (h : refund st = Except.error e) : runRefund st = st := by
  simp [runRefund, h]

/-- Witness for C6: the failing refund of `stWrongMint` commits no change. -/
theorem refund_failure_has_no_effect_witness :
    runRefund stWrongMint = stWrongMint :=
  refund_failure_has_no_effect stWrongMint EscrowError.invalidMintA (by decide)

/-- C7: the lifecycle of one escrow instance is exactly
NonExistent → Open (Make) → Settled xor Cancelled (Take xor Refund): every
successful transition is one of those three edges, no transition leaves a
terminal state, no self-loops occur, and after a successful Take a Refund
fails (and vice versa) because the record is destroyed. -/
theorem escrow_lifecycle_state_machine :
    (∀ (op : EscrowOp) (s s' : LifecycleState), lifecycleStep op s = Except.ok s' →
      ((s = LifecycleState.nonExistent ∧ op = EscrowOp.makeOp ∧ s' = LifecycleState.opened) ∨
       (s = LifecycleState.opened ∧ op = EscrowOp.takeOp ∧ s' = LifecycleState.settled) ∨
       (s = LifecycleState.opened ∧ op = EscrowOp.refundOp ∧ s' = LifecycleState.cancelled))) ∧
    (∀ (op : EscrowOp) (s s' : LifecycleState), lifecycleStep op s = Except.ok s' → s' ≠ s) ∧
    (∀ (op : EscrowOp) (s' : LifecycleState),
      lifecycleStep op LifecycleState.settled ≠ Except.ok s' ∧
      lifecycleStep op LifecycleState.cancelled ≠ Except.ok s') ∧
    (∀ s s' : LifecycleState, lifecycleStep EscrowOp.takeOp s = Except.ok s' →
      ∀ t, lifecycleStep EscrowOp.refundOp s' ≠ Except.ok t) ∧
    (∀ s s' : LifecycleState, lifecycleStep EscrowOp.refundOp s = Except.ok s' →
      ∀ t, lifecycleStep EscrowOp.takeOp s' ≠ Except.ok t) := by
  refine ⟨?_, ?_, ?_, ?_, ?_⟩ <;> decide

/-- Witness for C7: the successful Make step from NonExistent lands on the
Open edge of the state machine. -/
theorem escrow_lifecycle_state_machine_witness :
    (LifecycleState.nonExistent = LifecycleState.nonExistent ∧
        EscrowOp.makeOp = EscrowOp.makeOp ∧ LifecycleState.opened = LifecycleState.opened) ∨
    (LifecycleState.nonExistent = LifecycleState.opened ∧
        EscrowOp.makeOp = EscrowOp.takeOp ∧ LifecycleState.opened = LifecycleState.settled) ∨
    (LifecycleState.nonExistent = LifecycleState.opened ∧
        EscrowOp.makeOp = EscrowOp.refundOp ∧ LifecycleState.opened = LifecycleState.cancelled) :=
  escrow_lifecycle_state_machine.1 EscrowOp.makeOp
    LifecycleState.nonExistent LifecycleState.opened (by decide)

/-- C8: the escrow record's address and the vault's controlling authority are
pure deterministic functions of the tag "escrow", the maker and the seed —
equal inputs always derive equal addresses — and every successful refund
exhibits the record's address as exactly that derivation. -/
theorem derived_addresses_are_pure_functions :
    (∀ m1 s1 m2 s2 : Nat, m1 = m2 → s1 = s2 →
      findEscrowAddress m1 s1 = findEscrowAddress m2 s2) ∧
    (∀ st st' : RefundState, refund st = Except.ok st' →
      ∃ esc, st.escrowAcc = some esc ∧
        st.escrowAddr = escrowAddress st.makerKey esc.seed esc.bump ∧
        ∀ v, st.vault = some v →
          v.authority = escrowAddress st.makerKey esc.seed esc.bump) := by
  constructor
  · intro m1 s1 m2 s2 hm hs
    rw [hm, hs]
  · intro st st' h
    obtain ⟨esc, v, hv, hpost⟩ := refund_ok_struct h
    obtain ⟨hs, hacc, hmk, hma, haddr, hvlt, hvm, hva, hrest⟩ := refundValidate_ok hv
    refine ⟨esc, hacc, haddr, ?_⟩
    intro w hw
    rw [hvlt] at hw
    injection hw with hvw
    rw [← hvw, hva, haddr]

/-- Witness for C8: equal (maker, seed) inputs derive equal addresses, and
the refund of `st0` exhibits the derived record address. -/
theorem derived_addresses_are_pure_functions_witness :
    findEscrowAddress 3 5 = findEscrowAddress 3 5 ∧
    ∃ esc, st0.escrowAcc = some esc ∧
      st0.escrowAddr = escrowAddress st0.makerKey esc.seed esc.bump ∧
      ∀ v, st0.vault = some v →
        v.authority = escrowAddress st0.makerKey esc.seed esc.bump :=
  ⟨derived_addresses_are_pure_functions.1 3 5 3 5 rfl rfl,
   derived_addresses_are_pure_functions.2 st0 (refundPost st0 40) (by decide)⟩

/-- C9: when the maker's holding account for asset A does not exist, the
refund creates it — paid for out of the maker's lamports — before the
transfer runs, and it then receives the whole vault balance; when it already
exists, nothing is created and the maker pays no provisioning rent. -/
theorem refund_provisions_maker_holding_account (st st' : RefundState)
    (h : refund st = Except.ok st') :
    ∃ v, st.vault = some v ∧
      (st.makerAtaA = none →
        st.ataRentCost ≤ st.makerLamports ∧
        st'.makerAtaA = some ⟨st.mintAKey, st.makerKey, v.amount⟩ ∧
        st'.makerLamports
          = st.makerLamports - st.ataRentCost + st.vaultLamports + st.escrowLamports) ∧
      (∀ a, st.makerAtaA = some a →
        st'.makerAtaA = some { a with amount := a.amount + v.amount } ∧
        st'.makerLamports = st.makerLamports + st.vaultLamports + st.escrowLamports) := by
  obtain ⟨esc, v, hv, hpost⟩ := refund_ok_struct h
  obtain ⟨hs, hacc, hmk, hma, haddr, hvlt, hvm, hva, hvaddr, hataaddr, hata, hrent⟩ :=
    refundValidate_ok hv
  subst hpost
  refine ⟨v, hvlt, ?_, ?_⟩
  · intro hn
    exact ⟨hrent hn, by simp [refundPost, initMakerAta, hn],
      by simp [refundPost, makerLamAfterInit, hn]⟩
  · intro a ha
    exact ⟨by simp [refundPost, initMakerAta, ha],
      by simp [refundPost, makerLamAfterInit, ha]⟩

/-- Witness for C9: in `st0` the maker's holding account is absent; the
refund creates it for the maker's rent and lands the 40 vault units in it. -/
theorem refund_provisions_maker_holding_account_witness :
    ∃ v, st0.vault = some v ∧
      (st0.makerAtaA = none →
        st0.ataRentCost ≤ st0.makerLamports ∧
        (refundPost st0 40).makerAtaA = some ⟨st0.mintAKey, st0.makerKey, v.amount⟩ ∧
        (refundPost st0 40).makerLamports
          = st0.makerLamports - st0.ataRentCost + st0.vaultLamports + st0.escrowLamports) ∧
      (∀ a, st0.makerAtaA = some a →
        (refundPost st0 40).makerAtaA = some { a with amount := a.amount + v.amount } ∧
        (refundPost st0 40).makerLamports
          = st0.makerLamports + st0.vaultLamports + st0.escrowLamports) :=
  refund_provisions_maker_holding_account st0 (refundPost st0 40) (by decide)

/-- C10: in every successful refund the vault's owning authority is the
escrow record account itself — the vault sits at the associated-token address
of the record's own address for mint A, and the record's address is exactly
the program address derived from the stored (seed, bump) signer seeds used to
authorize the transfer and the closure. -/
theorem vault_authority_is_the_escrow_record (st st' : RefundState)
    (h : refund st = Except.ok st') :
    ∃ esc v, st.escrowAcc = some esc ∧ st.vault = some v ∧
      v.authority = st.escrowAddr ∧
      st.vaultAddr = ataAddress st.escrowAddr st.mintAKey ∧
      st.escrowAddr = createProgramAddress (signerSeeds st.makerKey esc.seed esc.bump) := by
  obtain ⟨esc, v, hv, hpost⟩ := refund_ok_struct h
  obtain ⟨hs, hacc, hmk, hma, haddr, hvlt, hvm, hva, hvaddr, hrest⟩ := refundValidate_ok hv
  exact ⟨esc, v, hacc, hvlt, hva, hvaddr, haddr⟩

/-- Witness for C10: in `st0` the vault's authority is the escrow record's
derived address. -/
theorem vault_authority_is_the_escrow_record_witness :
    ∃ esc v, st0.escrowAcc = some esc ∧ st0.vault = some v ∧
      v.authority = st0.escrowAddr ∧
      st0.vaultAddr = ataAddress st0.escrowAddr st0.mintAKey ∧
      st0.escrowAddr = createProgramAddress (signerSeeds st0.makerKey esc.seed esc.bump) :=
  vault_authority_is_the_escrow_record st0 (refundPost st0 40) (by decide)

end BlueshiftEscrow
